import Mathlib

/-!
Verification model of the connection-manager subsystem
(`src/connection_manager.c` of qpid-dispatch).

The definitions below are shallow embeddings of the C functions, translated
clause by clause from the source: strings become `String`/`List Char`, nullable
C strings become `Option String`, machine integers become `Nat` with explicit
wrap-around where the C arithmetic can overflow, the doubly-linked DEQ
collections become `List`, and fallible paths return `Option`/an explicit
result datatype.  Each definition names the C function it embeds.
-/

/-! ### Annotation stripping (load_strip_annotations, lines 171-197) -/

/-- The two annotation-stripping booleans of `qd_server_config_t`. -/
structure StripConfig where
  strip_inbound_annotations : Bool
  strip_outbound_annotations : Bool
deriving DecidableEq

/-- Initial value of the two stripping booleans: `load_server_config` clears the
whole `qd_server_config_t` with `memset(config, 0, sizeof(*config))` (line 307)
before `load_strip_annotations` runs, so both booleans start out `false`. -/
def zeroed_strip_config : StripConfig :=
  { strip_inbound_annotations := false, strip_outbound_annotations := false }

/-- Embedding of `load_strip_annotations` (lines 171-197): the four recognized
values each set both booleans; an absent value takes the `else` branch that
(after the `assert`, a no-op outside debug builds) sets both to `true`; a
present but unrecognized value falls through every `if` and leaves the
booleans of `config` untouched. -/
def load_strip_annotations (config : StripConfig) (stripAnnotations : Option String) :
    StripConfig :=
  match stripAnnotations with
  | some s =>
    if s = "both" then
      { strip_inbound_annotations := true, strip_outbound_annotations := true }
    else if s = "in" then
      { strip_inbound_annotations := true, strip_outbound_annotations := false }
    else if s = "out" then
      { strip_inbound_annotations := false, strip_outbound_annotations := true }
    else if s = "no" then
      { strip_inbound_annotations := false, strip_outbound_annotations := false }
    else
      config
  | none =>
    { strip_inbound_annotations := true, strip_outbound_annotations := true }

/-! ### Log-component bitmask (qd_log_message_components, populate_log_message) -/

/-- The fixed vocabulary `qd_log_message_components` (lines 71-86), minus the
terminating null entry. -/
def qd_log_message_components : List String :=
  ["message-id", "user-id", "to", "subject", "reply-to", "correlation-id",
   "content-type", "content-encoding", "absolute-expiry-time", "creation-time",
   "group-id", "group-sequence", "reply-to-group-id", "app-properties"]

/-- Token sequence produced by repeated `strtok(s, ",")`: maximal runs of
non-comma characters, with empty runs never produced.  The accumulator holds the
current token reversed. -/
def strtok_comma_aux : List Char → List Char → List (List Char)
  | [], cur => if cur.isEmpty then [] else [cur.reverse]
  | c :: rest, cur =>
    if c = ',' then
      if cur.isEmpty then strtok_comma_aux rest []
      else cur.reverse :: strtok_comma_aux rest []
    else
      strtok_comma_aux rest (c :: cur)

/-- Bits contributed by one token: the inner `for` loop of
`populate_log_message` walks the whole vocabulary and ORs `1 << i` for every
index whose entry compares equal to the token. -/
def log_token_bits (tok : List Char) : Nat :=
  qd_log_message_components.enum.foldl
    (fun acc p => if p.2.toList = tok then acc ||| (1 <<< p.1) else acc) 0

/-- Embedding of `populate_log_message` (lines 259-295): a null or `"none"`
value yields 0, `"all"` yields `INT32_MAX = 0x7FFFFFFF`, and otherwise the
comma-separated tokens are matched against the vocabulary, each match ORing its
bit into the result. -/
def populate_log_message (log_message : Option String) : Nat :=
  match log_message with
  | none => 0
  | some s =>
    if s = "none" then 0
    else if s = "all" then 0x7FFFFFFF
    else (strtok_comma_aux s.toList []).foldl (fun acc tok => acc ||| log_token_bits tok) 0

/-! ### Incoming-capacity derivation (load_server_config, lines 353-384) -/

/-- Modelled from the spec: `QD_AMQP_MIN_MAX_FRAME_SIZE`, the protocol-mandated
minimum max-frame-size, is defined in a header that is not part of this file;
the spec fixes it at 512 bytes. -/
def QD_AMQP_MIN_MAX_FRAME_SIZE : Nat := 512

/-- Outcome of the frame-size floor and incoming-capacity computation:
the promoted max-frame-size, the derived capacity, and the down-scaled frame
count carried by the truncation warning when one is emitted. -/
structure CapacityResult where
  max_frame_size : Nat
  incoming_capacity : Nat
  truncation_warning : Option Nat
deriving DecidableEq

/-- Embedding of the capacity derivation in `load_server_config`
(lines 357-384), parameterized by `sizeof(size_t)` of the platform.  The
`ssn_frames * mfs` product is 64-bit C arithmetic, hence the `% 2 ^ 64`. -/
def derive_incoming_capacity (sizeof_size_t maxFrameSize ssn_frames : Nat) :
    CapacityResult :=
  let mfs := if maxFrameSize < QD_AMQP_MIN_MAX_FRAME_SIZE then
               QD_AMQP_MIN_MAX_FRAME_SIZE else maxFrameSize
  if ssn_frames = 0 then
    { max_frame_size := mfs
      incoming_capacity := if sizeof_size_t < 8 then 0x7FFFFFFF else 0x7FFFFFFF * mfs
      truncation_warning := none }
  else
    let trial_ic := ssn_frames * mfs % 2 ^ 64
    let limit := if sizeof_size_t < 8 then 2 ^ 31 - 1 else 0
    if limit = 0 ∨ trial_ic < limit then
      { max_frame_size := mfs
        incoming_capacity := if trial_ic < QD_AMQP_MIN_MAX_FRAME_SIZE then
                               QD_AMQP_MIN_MAX_FRAME_SIZE else trial_ic
        truncation_warning := none }
    else
      { max_frame_size := mfs
        incoming_capacity := limit
        truncation_warning := some (limit / mfs) }

/-! ### delete-connector (qd_connection_manager_delete_connector, lines 937-952) -/

/-- The live connection context a connector may point at: whether the back
reference `ctx->connector` is still set and whether `ctx->pn_conn` is open. -/
structure ConnCtx where
  connector_backref : Bool
  pn_conn : Bool
deriving DecidableEq

/-- Observable state for `qd_connection_manager_delete_connector`: the
connector `ctx` pointer plus counters for the externally visible releases it
performs (list removals, reference releases, deferred-close enqueues). -/
structure DeleteConnectorState where
  ct_ctx : Option ConnCtx
  removed_count : Nat
  decref_count : Nat
  deferred_closes : Nat
deriving DecidableEq

/-- Embedding of `qd_connection_manager_delete_connector` (lines 937-952):
under the lock, a non-null `ct->ctx` has its back reference cleared and, if it
holds an open `pn_conn`, a deferred close is enqueued; afterwards the connector
is unconditionally removed from the collection (`DEQ_REMOVE`) and the reference
released (`qd_connector_decref`). -/
def qd_connection_manager_delete_connector (st : DeleteConnectorState) :
    DeleteConnectorState :=
  let st1 :=
    match st.ct_ctx with
    | some ctx =>
      { st with ct_ctx := some { ctx with connector_backref := false }
                deferred_closes := st.deferred_closes + (if ctx.pn_conn then 1 else 0) }
    | none => st
  { st1 with removed_count := st1.removed_count + 1
             decref_count := st1.decref_count + 1 }

/-! ### TLS profiles (struct qd_config_ssl_profile_t, registration, lookup) -/

/-- Embedding of `struct qd_config_ssl_profile_t` (lines 36-48): every field is
a nullable C string. -/
structure SslProfile where
  name : Option String
  ssl_password : Option String
  ssl_trusted_certificate_db : Option String
  ssl_trusted_certificates : Option String
  ssl_uid_format : Option String
  uid_name_mapping_file : Option String
  ssl_certificate_file : Option String
  ssl_private_key_file : Option String
  ssl_ciphers : Option String
  ssl_protocols : Option String
deriving DecidableEq

/-- Embedding of `qd_find_ssl_profile` (lines 94-104): linear walk from the head
of the profile list, returning the first profile whose name matches. -/
def qd_find_ssl_profile (profiles : List SslProfile) (name : String) :
    Option SslProfile :=
  profiles.find? (fun p => p.name = some name)

/-- Error codes raised through `qd_error` by the embedded functions. -/
inductive QdError where
  | NOT_FOUND
  | RUNTIME
deriving DecidableEq

/-- Embedding of `qd_config_ssl_profile_process_password` (lines 213-257),
parameterized by the process environment (`getenv`).  An `env:` directive looks
the variable up, substituting its value on success and raising
`QD_ERROR_NOT_FOUND` when the variable is absent; a `literal:` directive keeps
the remainder after skipping spaces; anything else leaves the password alone.
Returns the updated profile together with the error the call left recorded:
`qd_error` and `qd_error_code` live in error.c, not among these sources, and
are modelled from their use here as a recorded error that the `CHECK()` macro
(line 163) consults after the call. -/
def qd_config_ssl_profile_process_password (env : String → Option String)
    (p : SslProfile) : SslProfile × Option QdError :=
  match p.ssl_password with
  | none => (p, none)
  | some pw =>
    let cs := pw.toList
    if List.isPrefixOf "env:".toList cs then
      let envName := (cs.drop 4).dropWhile (fun c => c = ' ')
      match env (String.mk envName) with
      | some passwd => ({ p with ssl_password := some passwd }, none)
      | none => (p, some QdError.NOT_FOUND)
    else if List.isPrefixOf "literal:".toList cs then
      let rest := (cs.drop 8).dropWhile (fun c => c = ' ')
      ({ p with ssl_password := some (String.mk rest) }, none)
    else
      (p, none)

/-- Raw attribute values handed to `qd_dispatch_configure_ssl_profile` by the
management entity. -/
structure SslProfileEntity where
  name : Option String
  certFile : Option String
  privateKeyFile : Option String
  password : Option String
  passwordFile : Option String
  ciphers : Option String
  protocols : Option String
  caCertFile : Option String
  trustedCertsFile : Option String
  uidFormat : Option String
  uidNameMappingFile : Option String
deriving DecidableEq

/-- First line of a password file as the `fgetc` loop of
`qd_dispatch_configure_ssl_profile` reads it: characters up to the first
newline or end of file, capped at 199 bytes. -/
def read_password_file_line (content : List Char) : List Char :=
  (content.takeWhile (fun c => c ≠ '\n')).take 199

/-- Embedding of `qd_dispatch_configure_ssl_profile` (lines 507-574),
parameterized by the environment and by the file system (`fopen` returning the
file bytes, or `none` when the open fails).  The profile fields are copied from
the entity; when no inline password is given, a readable password file with a
non-empty first line replaces the password; finally
`qd_config_ssl_profile_process_password` runs and `CHECK()` sends any recorded
error to the failure exit, which frees the profile and returns null (`none`). -/
def qd_dispatch_configure_ssl_profile (env : String → Option String)
    (fs : String → Option (List Char)) (entity : SslProfileEntity) :
    Option SslProfile :=
  let p0 : SslProfile :=
    { name := entity.name
      ssl_password := entity.password
      ssl_trusted_certificate_db := entity.caCertFile
      ssl_trusted_certificates := entity.trustedCertsFile
      ssl_uid_format := entity.uidFormat
      uid_name_mapping_file := entity.uidNameMappingFile
      ssl_certificate_file := entity.certFile
      ssl_private_key_file := entity.privateKeyFile
      ssl_ciphers := entity.ciphers
      ssl_protocols := entity.protocols }
  let p1 :=
    if p0.ssl_password.isNone then
      match entity.passwordFile with
      | none => p0
      | some path =>
        match fs path with
        | none => p0
        | some content =>
          let line := read_password_file_line content
          if line.isEmpty then p0 else { p0 with ssl_password := some (String.mk line) }
    else p0
  match qd_config_ssl_profile_process_password env p1 with
  | (p2, none) => some p2
  | (_, some _) => none

/-- An sslProfile management entity with every attribute absent, the base the
concrete registration scenarios below start from. -/
def sslEntityBase : SslProfileEntity :=
  { name := none
    certFile := none
    privateKeyFile := none
    password := none
    passwordFile := none
    ciphers := none
    protocols := none
    caCertFile := none
    trustedCertsFile := none
    uidFormat := none
    uidNameMappingFile := none }

/-! ### Profile cascade in load_server_config (lines 402-450) -/

/-- Embedding of `struct qd_config_sasl_plugin_t` (lines 52-58). -/
structure SaslPlugin where
  name : Option String
  auth_service : Option String
  sasl_init_hostname : Option String
  auth_ssl_profile : Option String
deriving DecidableEq

/-- Embedding of `qd_find_sasl_plugin` (lines 109-119): first name match. -/
def qd_find_sasl_plugin (plugins : List SaslPlugin) (name : String) :
    Option SaslPlugin :=
  plugins.find? (fun p => p.name = some name)

/-- A concrete registered TLS profile used by the concrete scenarios below. -/
def sampleSslProfile : SslProfile :=
  { name := some "tls1"
    ssl_password := some "pw"
    ssl_trusted_certificate_db := some "/ca.pem"
    ssl_trusted_certificates := none
    ssl_uid_format := none
    uid_name_mapping_file := some "/uid.json"
    ssl_certificate_file := some "/cert.pem"
    ssl_private_key_file := some "/key.pem"
    ssl_ciphers := none
    ssl_protocols := some "TLSv1.2" }

/-- A concrete registered SASL plugin that names `sampleSslProfile` as its auth
TLS profile. -/
def sampleSaslPlugin : SaslPlugin :=
  { name := some "ap"
    auth_service := some "auth.example:5672"
    sasl_init_hostname := none
    auth_ssl_profile := some "tls1" }

/-- The nine TLS-material fields of `qd_server_config_t` filled in by the
profile cascade (the endpoint slot and the auth-plugin slot both have this
shape). -/
structure ServerConfigTLS where
  ssl_certificate_file : Option String
  ssl_private_key_file : Option String
  ssl_ciphers : Option String
  ssl_protocols : Option String
  ssl_password : Option String
  ssl_trusted_certificate_db : Option String
  ssl_trusted_certificates : Option String
  ssl_uid_format : Option String
  ssl_uid_name_mapping_file : Option String
deriving DecidableEq

/-- All-null TLS material: what the `memset` at line 307 leaves in the config
when no profile fields are copied over it. -/
def emptyTLS : ServerConfigTLS :=
  { ssl_certificate_file := none, ssl_private_key_file := none, ssl_ciphers := none
    ssl_protocols := none, ssl_password := none, ssl_trusted_certificate_db := none
    ssl_trusted_certificates := none, ssl_uid_format := none
    ssl_uid_name_mapping_file := none }

/-- The `SSTRDUP` block copying a found profile into a config TLS slot
(lines 410-418 for the endpoint slot, lines 435-443 for the auth slot): every
field is duplicated by value. -/
def copy_ssl_profile_tls (p : SslProfile) : ServerConfigTLS :=
  { ssl_certificate_file := p.ssl_certificate_file
    ssl_private_key_file := p.ssl_private_key_file
    ssl_ciphers := p.ssl_ciphers
    ssl_protocols := p.ssl_protocols
    ssl_password := p.ssl_password
    ssl_trusted_certificate_db := p.ssl_trusted_certificate_db
    ssl_trusted_certificates := p.ssl_trusted_certificates
    ssl_uid_format := p.ssl_uid_format
    ssl_uid_name_mapping_file := p.uid_name_mapping_file }

/-- The `sasl_plugin_config` slot of `qd_server_config_t` as the cascade fills
it in. -/
structure SaslPluginConfig where
  auth_service : Option String
  sasl_init_hostname : Option String
  use_ssl : Bool
  tls : ServerConfigTLS
deriving DecidableEq

/-- The zeroed auth-plugin slot (again from the `memset` at line 307). -/
def emptySaslPluginConfig : SaslPluginConfig :=
  { auth_service := none, sasl_init_hostname := none, use_ssl := false, tls := emptyTLS }

/-- What the profile cascade leaves behind when it completes: the endpoint TLS
slot, the auth-plugin slot, and the log lines it issued, split by level. -/
structure ProfileResolution where
  tls : ServerConfigTLS
  sasl : SaslPluginConfig
  info_logs : List String
  warning_logs : List String
deriving DecidableEq

/-- Possible exits of the profile cascade: normal completion, the
`qd_error(QD_ERROR_RUNTIME, ...)`/`CHECK()` failure exit for a missing SASL
plugin, and the dereference of a null `qd_find_ssl_profile` result at
lines 435-443 (the C has no not-found branch there). -/
inductive ResolveResult where
  | ok (r : ProfileResolution)
  | err (e : QdError)
  | nullDeref
deriving DecidableEq

/-- Embedding of the profile cascade of `load_server_config` (lines 402-450):
a named TLS profile that is found is copied by value into the endpoint slot,
one that is not found leaves the zeroed slot with no log line (the `if` at
line 409 has no `else`); a named SASL plugin that is not found raises
`QD_ERROR_RUNTIME` and takes the failure exit; a found SASL plugin has its
fields copied and one info line logged, and when it names an auth TLS profile
the lookup result is dereferenced with no null check.  The `ssl_required` and
`ssl_require_peer_authentication` assignments at lines 403-405 do not touch
the registries and are left out of this embedding. -/
def load_server_config_profiles (cm_ssl : List SslProfile)
    (cm_sasl : List SaslPlugin) (ssl_profile_name : Option String)
    (sasl_plugin_name : Option String) : ResolveResult :=
  let tls :=
    match ssl_profile_name with
    | none => emptyTLS
    | some n =>
      match qd_find_ssl_profile cm_ssl n with
      | some p => copy_ssl_profile_tls p
      | none => emptyTLS
  match sasl_plugin_name with
  | none =>
    .ok { tls := tls, sasl := emptySaslPluginConfig, info_logs := [], warning_logs := [] }
  | some n =>
    match qd_find_sasl_plugin cm_sasl n with
    | none => .err QdError.RUNTIME
    | some sp =>
      let base : SaslPluginConfig :=
        { auth_service := sp.auth_service, sasl_init_hostname := sp.sasl_init_hostname
          use_ssl := false, tls := emptyTLS }
      match sp.auth_ssl_profile with
      | none =>
        .ok { tls := tls, sasl := base
              info_logs := ["Using auth service"], warning_logs := [] }
      | some an =>
        match qd_find_ssl_profile cm_ssl an with
        | none => .nullDeref
        | some ap =>
          .ok { tls := tls
                sasl := { base with use_ssl := true, tls := copy_ssl_profile_tls ap }
                info_logs := ["Using auth service"], warning_logs := [] }

/-! ### Manager collections for the copy-semantics claim -/

/-- An already-resolved endpoint as the manager keeps it: just the TLS material
matters for the copy-semantics property. -/
structure EndpointTLS where
  tls : ServerConfigTLS
deriving DecidableEq

/-- Manager state restricted to the TLS-profile registry and the resolved
endpoints that configure-listener/connector appended. -/
structure ManagerTLSState where
  profiles : List SslProfile
  endpoints : List EndpointTLS
deriving DecidableEq

/-- Endpoint resolution step: run the profile cascade against the current
registry and append the resolved endpoint (`qd_dispatch_configure_listener` /
`qd_dispatch_configure_connector` keeping the `load_server_config` result). -/
def configure_endpoint_tls (st : ManagerTLSState) (ssl_profile_name : Option String) :
    ManagerTLSState :=
  match load_server_config_profiles st.profiles [] ssl_profile_name none with
  | .ok r => { st with endpoints := st.endpoints ++ [{ tls := r.tls }] }
  | _ => st

/-- Embedding of `config_ssl_profile_free` / `qd_connection_manager_delete_ssl_profile`
(lines 474-491, 917-921): the profile leaves the registry and its strings are
freed; nothing else of the manager state is touched. -/
def delete_ssl_profile (st : ManagerTLSState) (p : SslProfile) : ManagerTLSState :=
  { st with profiles := st.profiles.erase p }

/-- In-place update of one registered profile record, modelling a management
mutation of the profile after endpoints have resolved against it. -/
def mutate_ssl_profile (st : ManagerTLSState) (old updated : SslProfile) :
    ManagerTLSState :=
  { st with profiles := st.profiles.map (fun q => if q = old then updated else q) }

/-! ### start() lifecycle (qd_connection_manager_start, lines 870-901) -/

/-- Connector states tested by `qd_connection_manager_start` (the
`CXTR_STATE_*` enum of the server layer). -/
inductive CxtrState where
  | INIT
  | CONNECTING
  | OPEN
  | FAILED
deriving DecidableEq

/-- A listener handle as `start` sees it: the proton listener pointer (absent
while not accepting) and the `exit_on_error` flag. -/
structure ListenerH where
  pn_listener : Option Nat
  exit_on_error : Bool
deriving DecidableEq

/-- A connector handle as `start` sees it. -/
structure ConnectorH where
  state : CxtrState
deriving DecidableEq

/-- Modelled from the spec: `qd_listener_listen` lives in the server layer
(server.c, not among these sources); it is the I/O driver entry
`begin_listening(cfg) -> handle|failure`, initiating a non-blocking bind that
installs the proton listener handle on success and reports failure leaving the
handle empty.  The `ok` argument stands for the asynchronous outcome. -/
def qd_listener_listen (ok : Bool) (li : ListenerH) : Bool × ListenerH :=
  if ok then (true, { li with pn_listener := some 1 }) else (false, li)

/-- Modelled from the spec: `qd_connector_connect` lives in the server layer
(server.c, not among these sources); it initiates an outbound attempt, moving
the connector out of its idle state into the connecting state. -/
def qd_connector_connect (ct : ConnectorH) : ConnectorH :=
  { ct with state := CxtrState.CONNECTING }

/-- One listen or connect attempt issued by `start`, identified by the position
of the handle in its collection. -/
inductive StartAttempt where
  | listen (idx : Nat)
  | connect (idx : Nat)
deriving DecidableEq

/-- The listener loop of `qd_connection_manager_start` (lines 876-887),
parameterized by the bind outcome per listener position.  A listener with a
proton listener already installed is skipped; otherwise a listen attempt is
issued, a failure during the first start is fatal to the process (`exit(1)`,
modelled as `none`), and on the surviving paths `exit_on_error` is set to the
first-start flag.  Returns the updated listeners and the attempts issued. -/
def start_listeners (ok : Nat → Bool) (first_start : Bool) :
    Nat → List ListenerH → Option (List ListenerH × List StartAttempt)
  | _, [] => some ([], [])
  | idx, li :: rest =>
    if li.pn_listener.isNone then
      let r := qd_listener_listen (ok idx) li
      if r.1 = false ∧ first_start then none
      else
        match start_listeners ok first_start (idx + 1) rest with
        | none => none
        | some (rest1, att) =>
          some ({ r.2 with exit_on_error := first_start } :: rest1,
                StartAttempt.listen idx :: att)
    else
      match start_listeners ok first_start (idx + 1) rest with
      | none => none
      | some (rest1, att) => some (li :: rest1, att)

/-- The connector loop of `qd_connection_manager_start` (lines 889-898): a
connector in the open or connecting state is skipped (`continue`), every other
connector gets a connect attempt. -/
def start_connectors : Nat → List ConnectorH → List ConnectorH × List StartAttempt
  | _, [] => ([], [])
  | idx, ct :: rest =>
    let r := start_connectors (idx + 1) rest
    if ct.state = CxtrState.OPEN ∨ ct.state = CxtrState.CONNECTING then
      (ct :: r.1, r.2)
    else
      (qd_connector_connect ct :: r.1, StartAttempt.connect idx :: r.2)

/-- Manager state for `start`: the two collections plus the `first_start`
flag (static in the C, threaded explicitly here). -/
structure CMStartState where
  listeners : List ListenerH
  connectors : List ConnectorH
  first_start : Bool
deriving DecidableEq

/-- Embedding of `qd_connection_manager_start` (lines 870-901): run the
listener loop, then the connector loop, then clear `first_start`.  `none`
models the `exit(1)` on a first-start bind failure. -/
def qd_connection_manager_start (ok : Nat → Bool) (cm : CMStartState) :
    Option (CMStartState × List StartAttempt) :=
  match start_listeners ok cm.first_start 0 cm.listeners with
  | none => none
  | some (ls, la) =>
    let rc := start_connectors 0 cm.connectors
    some ({ listeners := ls, connectors := rc.1, first_start := false }, la ++ rc.2)

/-! ### Failover-list serialization (qd_entity_refresh_connector, lines 710-779) -/

/-- Embedding of `struct qd_failover_item_t` restricted to the fields the
serialization reads: the optional scheme and the optional composed host:port. -/
structure FailoverItem where
  scheme : Option String
  host_port : Option String
deriving DecidableEq

/-- Formatting of one failover item by the `strcat` calls at lines 747-753:
`scheme://` when a scheme is present, then the host:port when present. -/
def format_failover_item (it : FailoverItem) : String :=
  (match it.scheme with
   | some s => s ++ "://"
   | none => "") ++
  (match it.host_port with
   | some hp => hp
   | none => "")

/-- Circular advance over the item list: `DEQ_NEXT(item)` falling back to
`DEQ_HEAD(conn_info_list)` when the tail is passed (lines 770-772). -/
def next_pos (len pos : Nat) : Nat :=
  if pos + 1 = len then 0 else pos + 1

/-- The `while` loop of `qd_entity_refresh_connector` (lines 732-773) with the
item pointer replaced by a position in the list and an explicit fuel (the C
loop terminates only because `conn_index` eventually matches the running `i`).
State: remaining fuel, current position, the running counters `i` and
`num_items`, and the string built so far. -/
def refresh_loop (items : List FailoverItem) (conn_index : Nat) :
    Nat → Nat → Nat → Nat → String → String
  | 0, _, _, _, acc => acc
  | fuel + 1, pos, i, num_items, acc =>
    if num_items ≥ items.length then acc
    else
      let acc1 := if num_items ≥ 1 then acc ++ ", " else acc
      let item := items.getD pos { scheme := none, host_port := none }
      if conn_index = i then
        refresh_loop items conn_index fuel (next_pos items.length pos) (i + 1)
          (num_items + 1) (acc1 ++ format_failover_item item)
      else if num_items > 0 then
        refresh_loop items conn_index fuel (next_pos items.length pos) (i + 1)
          (num_items + 1) (acc1 ++ format_failover_item item)
      else
        refresh_loop items conn_index fuel (next_pos items.length pos) (i + 1)
          num_items acc1

/-- Embedding of `qd_entity_refresh_connector` (lines 710-779): serialize the
circular failover list starting at the connector 1-based `conn_index`.  The
fuel `conn_index + items.length + 1` covers every index that addresses an
element of the circular sequence: the loop skips `conn_index - 1` items, then
emits `items.length` of them. -/
def qd_entity_refresh_connector (items : List FailoverItem) (conn_index : Nat) :
    String :=
  refresh_loop items conn_index (conn_index + items.length + 1) 0 1 0 ""

/-- Comma-and-space join of already-formatted items, the shape
`get_failover_info_length` (lines 676-701) sizes the buffer for: two separator
bytes between adjacent items, none at the ends. -/
def joinCommaSpace : List String → String
  | [] => ""
  | [s] => s
  | s :: rest => s ++ ", " ++ joinCommaSpace rest

/-- Item sequence read circularly from `pos`, for `k` steps. -/
def circFrom (items : List FailoverItem) : Nat → Nat → List FailoverItem
  | _, 0 => []
  | pos, k + 1 =>
    items.getD pos { scheme := none, host_port := none } ::
      circFrom items (next_pos items.length pos) k

/-- Separator-prefixed concatenation of formatted items, the shape the loop
accumulator takes once the first item has been emitted. -/
def sepJoin : List FailoverItem → String
  | [] => ""
  | it :: rest => ", " ++ format_failover_item it ++ sepJoin rest

/-- Position reached after `a` circular advances from `pos`. -/
def circAdvance (len : Nat) : Nat → Nat → Nat
  | 0, pos => pos
  | a + 1, pos => circAdvance len a (next_pos len pos)

/-! ## Theorems -/

/-! ### Claim C4: annotation stripping -/

/-- Claim C4 counterexample: an unrecognized value such as `"bogus"` does not
default to stripping both; it falls through every branch of
`load_strip_annotations` and leaves the zeroed configuration, so both booleans
stay `false`. -/
theorem load_strip_annotations_bogus_counterexample :
    load_strip_annotations zeroed_strip_config (some "bogus") =
      { strip_inbound_annotations := false, strip_outbound_annotations := false } ∧
    load_strip_annotations zeroed_strip_config (some "bogus") ≠
      { strip_inbound_annotations := true, strip_outbound_annotations := true } := by
  decide

/-- Claim C4 (amended): `"both"`, `"in"`, `"out"`, `"no"` map to (true,true),
(true,false), (false,true), (false,false); an absent value defaults to
stripping both; an unrecognized value leaves the configuration exactly as it
was, which after the `memset` in `load_server_config` means (false,false). -/
theorem load_strip_annotations_cases (c : StripConfig) :
    load_strip_annotations c (some "both") =
      { strip_inbound_annotations := true, strip_outbound_annotations := true } ∧
    load_strip_annotations c (some "in") =
      { strip_inbound_annotations := true, strip_outbound_annotations := false } ∧
    load_strip_annotations c (some "out") =
      { strip_inbound_annotations := false, strip_outbound_annotations := true } ∧
    load_strip_annotations c (some "no") =
      { strip_inbound_annotations := false, strip_outbound_annotations := false } ∧
    load_strip_annotations c none =
      { strip_inbound_annotations := true, strip_outbound_annotations := true } ∧
    ∀ s : String, s ≠ "both" → s ≠ "in" → s ≠ "out" → s ≠ "no" →
      load_strip_annotations c (some s) = c := by
  refine ⟨rfl, rfl, rfl, rfl, rfl, ?_⟩
  intro s h1 h2 h3 h4
  simp [load_strip_annotations, h1, h2, h3, h4]

/-- Claim C4 witness: the amended theorem applied at the zeroed configuration
and the unrecognized value `"bogus"`. -/
theorem load_strip_annotations_cases_witness :
    load_strip_annotations zeroed_strip_config (some "bogus") = zeroed_strip_config :=
  (load_strip_annotations_cases zeroed_strip_config).2.2.2.2.2 "bogus"
    (by decide) (by decide) (by decide) (by decide)

/-! ### Claim C5: log-component bitmask -/

/-- Claim C5: `"message-id,to"` sets exactly bits 0 and 2; `"all"` yields
`INT32_MAX`, which has every vocabulary bit set; `"none"`, an absent value and
the empty string yield zero; unknown tokens such as `"bogus"` contribute no
bit. -/
theorem populate_log_message_spec :
    populate_log_message (some "message-id,to") = 2 ^ 0 + 2 ^ 2 ∧
    populate_log_message (some "all") = 0x7FFFFFFF ∧
    ((List.range qd_log_message_components.length).all
      (fun i => Nat.testBit (populate_log_message (some "all")) i)) = true ∧
    populate_log_message (some "none") = 0 ∧
    populate_log_message none = 0 ∧
    populate_log_message (some "") = 0 ∧
    populate_log_message (some "bogus") = 0 ∧
    populate_log_message (some "message-id,bogus,to") = 2 ^ 0 + 2 ^ 2 := by
  decide

/-! ### Claim C2: incoming-capacity derivation -/

/-- Claim C2 counterexample: on a narrow-pointer platform (`sizeof(size_t) = 4`)
with no session-frame override, the code yields the platform signed-32-bit
maximum itself, not zero and not that maximum multiplied by the frame size. -/
theorem derive_incoming_capacity_narrow_counterexample :
    (derive_incoming_capacity 4 512 0).incoming_capacity = 0x7FFFFFFF ∧
    (derive_incoming_capacity 4 512 0).incoming_capacity ≠ 0 ∧
    (derive_incoming_capacity 4 512 0).incoming_capacity ≠ 0x7FFFFFFF * 512 := by
  decide

/-- Claim C2 (amended): after the 512-byte floor is applied to the frame size,
no override gives capacity `INT32_MAX * max_frame_size` on wide-pointer
platforms and `INT32_MAX` itself (an effectively unbounded sentinel, not zero)
on narrow ones; an override `n > 0` gives `n * max_frame_size` raised to the
frame-size floor whenever no platform limit applies or the candidate stays
below it, and otherwise clamps to the limit, warning with
`limit / max_frame_size`. -/
theorem derive_incoming_capacity_spec (w mfs0 n : Nat) :
    (derive_incoming_capacity w mfs0 n).max_frame_size = max QD_AMQP_MIN_MAX_FRAME_SIZE mfs0 ∧
    (n = 0 → 8 ≤ w →
      (derive_incoming_capacity w mfs0 n).incoming_capacity =
        0x7FFFFFFF * max QD_AMQP_MIN_MAX_FRAME_SIZE mfs0 ∧
      (derive_incoming_capacity w mfs0 n).truncation_warning = none) ∧
    (n = 0 → w < 8 →
      (derive_incoming_capacity w mfs0 n).incoming_capacity = 0x7FFFFFFF ∧
      (derive_incoming_capacity w mfs0 n).truncation_warning = none) ∧
    (n ≠ 0 → 8 ≤ w →
      (derive_incoming_capacity w mfs0 n).incoming_capacity =
        max QD_AMQP_MIN_MAX_FRAME_SIZE (n * max QD_AMQP_MIN_MAX_FRAME_SIZE mfs0 % 2 ^ 64) ∧
      (derive_incoming_capacity w mfs0 n).truncation_warning = none) ∧
    (n ≠ 0 → w < 8 → n * max QD_AMQP_MIN_MAX_FRAME_SIZE mfs0 % 2 ^ 64 < 2 ^ 31 - 1 →
      (derive_incoming_capacity w mfs0 n).incoming_capacity =
        max QD_AMQP_MIN_MAX_FRAME_SIZE (n * max QD_AMQP_MIN_MAX_FRAME_SIZE mfs0 % 2 ^ 64) ∧
      (derive_incoming_capacity w mfs0 n).truncation_warning = none) ∧
    (n ≠ 0 → w < 8 → 2 ^ 31 - 1 ≤ n * max QD_AMQP_MIN_MAX_FRAME_SIZE mfs0 % 2 ^ 64 →
      (derive_incoming_capacity w mfs0 n).incoming_capacity = 2 ^ 31 - 1 ∧
      (derive_incoming_capacity w mfs0 n).truncation_warning =
        some ((2 ^ 31 - 1) / max QD_AMQP_MIN_MAX_FRAME_SIZE mfs0)) := by
  have hifmax : ∀ a b : Nat, (if a < b then b else a) = max b a := by
    intro a b; split <;> omega
  refine ⟨?_, ?_, ?_, ?_, ?_, ?_⟩
  · simp only [derive_incoming_capacity, hifmax]
    split_ifs <;> rfl
  · intro h0 hw
    have hw8 : ¬ w < 8 := by omega
    subst h0
    simp [derive_incoming_capacity, hifmax, hw8]
  · intro h0 hw
    subst h0
    simp [derive_incoming_capacity, hifmax, hw]
  · intro h0 hw
    have hw8 : ¬ w < 8 := by omega
    simp [derive_incoming_capacity, hifmax, h0, hw8]
  · intro h0 hw hlt
    norm_num at hlt
    simp [derive_incoming_capacity, hifmax, h0, hw, hlt]
  · intro h0 hw hge
    norm_num at hge
    have hnlt : ¬ n * max QD_AMQP_MIN_MAX_FRAME_SIZE mfs0 % 18446744073709551616 <
        2147483647 := by omega
    simp [derive_incoming_capacity, hifmax, h0, hw, hnlt]

/-- Claim C2 witness: on a wide platform, an override of 4 session frames with
frame size 512 gives capacity 2048 and no truncation warning. -/
theorem derive_incoming_capacity_spec_witness :
    (derive_incoming_capacity 8 512 4).incoming_capacity = 2048 ∧
    (derive_incoming_capacity 8 512 4).truncation_warning = none := by
  have h := (derive_incoming_capacity_spec 8 512 4).2.2.2.1 (by decide) (by decide)
  refine ⟨?_, h.2⟩
  rw [h.1]
  decide

/-! ### Claim C9: delete-connector invoked twice -/

/-- Claim C9 counterexample: with the live context already cleared, a second
`qd_connection_manager_delete_connector` still removes the connector from the
collection again and releases the reference again — both releases happen
twice, so the second call is not release-safe. -/
theorem delete_connector_twice_counterexample :
    (qd_connection_manager_delete_connector (qd_connection_manager_delete_connector
      { ct_ctx := none, removed_count := 0, decref_count := 0,
        deferred_closes := 0 })).removed_count = 2 ∧
    (qd_connection_manager_delete_connector (qd_connection_manager_delete_connector
      { ct_ctx := none, removed_count := 0, decref_count := 0,
        deferred_closes := 0 })).decref_count = 2 ∧
    ¬ ((qd_connection_manager_delete_connector (qd_connection_manager_delete_connector
      { ct_ctx := none, removed_count := 0, decref_count := 0,
        deferred_closes := 0 })).decref_count ≤ 1) := by
  decide

/-- Claim C9 (amended): when the live context was already cleared, a second
`delete_connector` call is idempotent only in the context block — it clears
nothing further and enqueues no deferred close — but it unconditionally
performs a second collection removal and a second reference release. -/
theorem delete_connector_twice_effects (st : DeleteConnectorState)
    (h : st.ct_ctx = none) :
    qd_connection_manager_delete_connector (qd_connection_manager_delete_connector st) =
      { st with removed_count := st.removed_count + 2
                decref_count := st.decref_count + 2 } := by
  simp [qd_connection_manager_delete_connector, h]

/-- Claim C9 witness: the amended theorem applied at a connector whose context
is already cleared and whose counters start at zero. -/
theorem delete_connector_twice_effects_witness :
    qd_connection_manager_delete_connector (qd_connection_manager_delete_connector
      { ct_ctx := none, removed_count := 0, decref_count := 0, deferred_closes := 0 }) =
      { ct_ctx := none, removed_count := 2, decref_count := 2, deferred_closes := 0 } :=
  delete_connector_twice_effects
    { ct_ctx := none, removed_count := 0, decref_count := 0, deferred_closes := 0 } rfl

/-! ### Claim C3: password resolution during TLS-profile registration -/

/-- Claim C3 counterexample: a password directive `env:MISSING` with the
variable unset records `QD_ERROR_NOT_FOUND`, which the `CHECK()` after
`qd_config_ssl_profile_process_password` turns into the failure exit —
registration returns null instead of a handle, so password resolution is not
soft in the env case. -/
theorem configure_ssl_profile_env_missing_counterexample :
    qd_dispatch_configure_ssl_profile (fun _ => none) (fun _ => none)
      { sslEntityBase with name := some "p", password := some "env:MISSING" } = none := by
  decide

/-- Claim C3 (amended): a password-file path that cannot be opened is soft —
the registration still returns a handle and the password is left empty — but a
password of the form `env:NAME` with `NAME` unset in the environment is hard:
the recorded NOT_FOUND error aborts the registration, which returns a failure
instead of a handle. -/
theorem ssl_profile_password_resolution (env : String → Option String)
    (fs : String → Option (List Char)) (e : SslProfileEntity) :
    (∀ path, e.password = none → e.passwordFile = some path → fs path = none →
      ∃ p, qd_dispatch_configure_ssl_profile env fs e = some p ∧
        p.ssl_password = none) ∧
    (∀ pw rest, e.password = some pw →
      pw.toList = 'e' :: 'n' :: 'v' :: ':' :: rest →
      env (String.mk (rest.dropWhile (fun c => c = ' '))) = none →
      qd_dispatch_configure_ssl_profile env fs e = none) := by
  constructor
  · intro path hpw hpf hfs
    refine ⟨{ name := e.name, ssl_password := none,
              ssl_trusted_certificate_db := e.caCertFile
              ssl_trusted_certificates := e.trustedCertsFile
              ssl_uid_format := e.uidFormat
              uid_name_mapping_file := e.uidNameMappingFile
              ssl_certificate_file := e.certFile
              ssl_private_key_file := e.privateKeyFile
              ssl_ciphers := e.ciphers
              ssl_protocols := e.protocols }, ?_, rfl⟩
    simp [qd_dispatch_configure_ssl_profile, qd_config_ssl_profile_process_password,
      hpw, hpf, hfs]
  · intro pw rest hpw hchars henv
    have hdata : pw.data = 'e' :: 'n' :: 'v' :: ':' :: rest := hchars
    simp [qd_dispatch_configure_ssl_profile, qd_config_ssl_profile_process_password,
      hpw, hdata, List.cons_prefix_cons, List.drop_succ_cons, henv]

/-- Claim C3 witness: the amended theorem at two concrete registrations — one
with only an unreadable password file (handle returned, password empty), one
with `env:MISSING` unset (failure returned). -/
theorem ssl_profile_password_resolution_witness :
    (∃ p, qd_dispatch_configure_ssl_profile (fun _ => none) (fun _ => none)
      { sslEntityBase with passwordFile := some "/etc/pw" } = some p ∧
      p.ssl_password = none) ∧
    qd_dispatch_configure_ssl_profile (fun _ => none) (fun _ => none)
      { sslEntityBase with password := some "env:MISSING" } = none := by
  constructor
  · exact (ssl_profile_password_resolution (fun _ => none) (fun _ => none)
      { sslEntityBase with passwordFile := some "/etc/pw" }).1 "/etc/pw" rfl rfl rfl
  · exact (ssl_profile_password_resolution (fun _ => none) (fun _ => none)
      { sslEntityBase with password := some "env:MISSING" }).2 "env:MISSING"
      "MISSING".toList rfl (by decide) rfl

/-! ### Claim C6: soft TLS-profile reference, hard auth-plugin reference -/

/-- Claim C6 counterexample: a TLS-profile name matching no registered profile
resolves successfully with empty TLS material but with NO log line at all —
the `if (ssl_profile)` at line 409 has no else branch — whereas the claim
asserts a warning is logged. -/
theorem tls_profile_missing_no_warning_counterexample :
    load_server_config_profiles [] [] (some "missing") none =
      ResolveResult.ok { tls := emptyTLS, sasl := emptySaslPluginConfig,
                         info_logs := [], warning_logs := [] } := by
  decide

/-- Claim C6 (amended): a TLS-profile reference that matches no registered
profile is soft — resolution completes with empty (zeroed) TLS material and
no warning is logged; an auth-plugin reference that matches no registered
plugin is hard — resolution exits through `qd_error(QD_ERROR_RUNTIME)` and
returns the error to the caller. -/
theorem profile_not_found_soft_hard (S : List SslProfile) (P : List SaslPlugin)
    (n m : String) (sslopt : Option String) :
    (qd_find_ssl_profile S n = none →
      load_server_config_profiles S P (some n) none =
        ResolveResult.ok { tls := emptyTLS, sasl := emptySaslPluginConfig,
                           info_logs := [], warning_logs := [] }) ∧
    (qd_find_sasl_plugin P m = none →
      load_server_config_profiles S P sslopt (some m) =
        ResolveResult.err QdError.RUNTIME) := by
  constructor
  · intro h
    simp [load_server_config_profiles, h]
  · intro h
    simp [load_server_config_profiles, h]

/-- Claim C6 witness: the amended theorem at empty registries — the missing
TLS profile resolves to the zeroed material without logging, the missing SASL
plugin aborts with the runtime error. -/
theorem profile_not_found_soft_hard_witness :
    load_server_config_profiles [] [] (some "tls-x") none =
      ResolveResult.ok { tls := emptyTLS, sasl := emptySaslPluginConfig,
                         info_logs := [], warning_logs := [] } ∧
    load_server_config_profiles [] [] none (some "auth-x") =
      ResolveResult.err QdError.RUNTIME :=
  ⟨(profile_not_found_soft_hard [] [] "tls-x" "auth-x" none).1 rfl,
   (profile_not_found_soft_hard [] [] "tls-x" "auth-x" none).2 rfl⟩

/-! ### Claim C8: profile fields are copied by value into the endpoint -/

/-- Claim C8: resolving an endpoint against a found TLS profile copies each of
the nine TLS fields by value into the endpoint configuration, and afterwards
deleting the profile from the registry or mutating any registered profile
leaves the already-resolved endpoints exactly as they were. -/
theorem tls_profile_copy_semantics (st : ManagerTLSState) (n : String)
    (p : SslProfile) (h : qd_find_ssl_profile st.profiles n = some p) :
    (configure_endpoint_tls st (some n)).endpoints =
      st.endpoints ++ [{ tls :=
        { ssl_certificate_file := p.ssl_certificate_file
          ssl_private_key_file := p.ssl_private_key_file
          ssl_ciphers := p.ssl_ciphers
          ssl_protocols := p.ssl_protocols
          ssl_password := p.ssl_password
          ssl_trusted_certificate_db := p.ssl_trusted_certificate_db
          ssl_trusted_certificates := p.ssl_trusted_certificates
          ssl_uid_format := p.ssl_uid_format
          ssl_uid_name_mapping_file := p.uid_name_mapping_file } }] ∧
    (∀ q, (delete_ssl_profile (configure_endpoint_tls st (some n)) q).endpoints =
      (configure_endpoint_tls st (some n)).endpoints) ∧
    (∀ old updated,
      (mutate_ssl_profile (configure_endpoint_tls st (some n)) old updated).endpoints =
        (configure_endpoint_tls st (some n)).endpoints) := by
  refine ⟨?_, fun q => rfl, fun old updated => rfl⟩
  simp [configure_endpoint_tls, load_server_config_profiles, h, copy_ssl_profile_tls]

/-- Claim C8 witness: the copy-semantics theorem at a one-profile registry. -/
theorem tls_profile_copy_semantics_witness :
    (configure_endpoint_tls { profiles := [sampleSslProfile], endpoints := [] }
      (some "tls1")).endpoints =
      [{ tls := copy_ssl_profile_tls sampleSslProfile }] ∧
    (delete_ssl_profile (configure_endpoint_tls
        { profiles := [sampleSslProfile], endpoints := [] } (some "tls1"))
      sampleSslProfile).endpoints =
      [{ tls := copy_ssl_profile_tls sampleSslProfile }] := by
  have h := tls_profile_copy_semantics
    { profiles := [sampleSslProfile], endpoints := [] } "tls1" sampleSslProfile (by decide)
  constructor
  · rw [h.1]
    simp [copy_ssl_profile_tls]
  · rw [h.2.1 sampleSslProfile, h.1]
    simp [copy_ssl_profile_tls]

/-! ### Claim C10: the auth-channel TLS lookup has no not-found branch -/

/-- Claim C10: when a found SASL plugin names an auth TLS profile, the copy of
the auth-channel TLS material dereferences the `qd_find_ssl_profile` result
directly; under the precondition that the named profile is registered the
cascade completes normally, and without it the dereference of the null lookup
result (the embedding error branch) is reached. -/
theorem auth_ssl_profile_lookup_totality (S : List SslProfile)
    (P : List SaslPlugin) (sslopt : Option String) (m an : String)
    (sp : SaslPlugin) (hsp : qd_find_sasl_plugin P m = some sp)
    (han : sp.auth_ssl_profile = some an) :
    ((∃ ap, qd_find_ssl_profile S an = some ap) →
      ∃ r, load_server_config_profiles S P sslopt (some m) = ResolveResult.ok r) ∧
    (qd_find_ssl_profile S an = none →
      load_server_config_profiles S P sslopt (some m) = ResolveResult.nullDeref) := by
  constructor
  · rintro ⟨ap, hap⟩
    simp only [load_server_config_profiles, hsp, han, hap]
    exact ⟨_, rfl⟩
  · intro hap
    simp [load_server_config_profiles, hsp, han, hap]

/-- Claim C10 witness: with `sampleSaslPlugin` registered, the cascade
completes when `sampleSslProfile` is registered under the referenced name and
hits the null dereference when the TLS registry is empty. -/
theorem auth_ssl_profile_lookup_totality_witness :
    (∃ r, load_server_config_profiles [sampleSslProfile] [sampleSaslPlugin] none
      (some "ap") = ResolveResult.ok r) ∧
    load_server_config_profiles [] [sampleSaslPlugin] none (some "ap") =
      ResolveResult.nullDeref := by
  constructor
  · exact (auth_ssl_profile_lookup_totality [sampleSslProfile] [sampleSaslPlugin]
      none "ap" "tls1" sampleSaslPlugin (by decide) rfl).1 ⟨sampleSslProfile, by decide⟩
  · exact (auth_ssl_profile_lookup_totality [] [sampleSaslPlugin]
      none "ap" "tls1" sampleSaslPlugin (by decide) rfl).2 rfl

/-! ### Claim C7: start() idempotency -/

/-- Connector collection after the connector loop of `start`: connectors in
the open or connecting state are untouched, every other connector has been
moved to the connecting state by `qd_connector_connect`. -/
theorem start_connectors_fst : ∀ (idx : Nat) (l : List ConnectorH),
    (start_connectors idx l).1 =
      l.map (fun ct =>
        if ct.state = CxtrState.OPEN ∨ ct.state = CxtrState.CONNECTING then ct
        else qd_connector_connect ct) := by
  intro idx l
  induction l generalizing idx with
  | nil => rfl
  | cons ct rest ih =>
    simp only [start_connectors, List.map_cons]
    split
    · simp [ih (idx + 1), *]
    · simp [ih (idx + 1), *]

/-- Connect attempts issued by the connector loop: exactly one per connector
position whose state is neither open nor connecting. -/
theorem connect_mem_start_connectors : ∀ (idx : Nat) (l : List ConnectorH) (k : Nat),
    StartAttempt.connect k ∈ (start_connectors idx l).2 ↔
      ∃ j ct, l[j]? = some ct ∧ k = idx + j ∧
        ¬ (ct.state = CxtrState.OPEN ∨ ct.state = CxtrState.CONNECTING) := by
  intro idx l
  induction l generalizing idx with
  | nil => intro k; simp [start_connectors]
  | cons ct rest ih =>
    intro k
    simp only [start_connectors]
    split
    case isTrue hact =>
      rw [show (ct :: (start_connectors (idx + 1) rest).1,
            (start_connectors (idx + 1) rest).2).2 = (start_connectors (idx + 1) rest).2
          from rfl]
      rw [ih (idx + 1) k]
      constructor
      · rintro ⟨j, ct', hj, hk, h⟩
        exact ⟨j + 1, ct', by simpa using hj, by omega, h⟩
      · rintro ⟨j, ct', hj, hk, h⟩
        match j with
        | 0 =>
          rw [List.getElem?_cons_zero] at hj
          cases hj
          exact absurd hact h
        | j + 1 =>
          rw [List.getElem?_cons_succ] at hj
          exact ⟨j, ct', hj, by omega, h⟩
    case isFalse hact =>
      rw [show (qd_connector_connect ct :: (start_connectors (idx + 1) rest).1,
            StartAttempt.connect idx :: (start_connectors (idx + 1) rest).2).2 =
            StartAttempt.connect idx :: (start_connectors (idx + 1) rest).2 from rfl]
      rw [List.mem_cons]
      constructor
      · rintro (heq | hmem)
        · cases heq
          exact ⟨0, ct, by simp, by omega, hact⟩
        · obtain ⟨j, ct', hj, hk, h⟩ := (ih (idx + 1) k).mp hmem
          exact ⟨j + 1, ct', by simpa using hj, by omega, h⟩
      · rintro ⟨j, ct', hj, hk, h⟩
        match j with
        | 0 =>
          rw [List.getElem?_cons_zero] at hj
          cases hj
          exact Or.inl (by simp [hk])
        | j + 1 =>
          rw [List.getElem?_cons_succ] at hj
          exact Or.inr ((ih (idx + 1) k).mpr ⟨j, ct', hj, by omega, h⟩)

/-- The connector loop issues no listen attempts. -/
theorem listen_not_mem_start_connectors : ∀ (idx : Nat) (l : List ConnectorH) (k : Nat),
    StartAttempt.listen k ∉ (start_connectors idx l).2 := by
  intro idx l
  induction l generalizing idx with
  | nil => intro k; simp [start_connectors]
  | cons ct rest ih =>
    intro k
    simp only [start_connectors]
    split
    · exact ih (idx + 1) k
    · intro hmem
      rcases List.mem_cons.mp hmem with heq | hmem2
      · cases heq
      · exact ih (idx + 1) k hmem2

/-- The listener loop of `start`, characterized position by position: a
listener with a proton listener installed is returned untouched and gets no
attempt; a listener without one gets exactly one listen attempt, its handle
updated by `qd_listener_listen` and its `exit_on_error` set to the first-start
flag.  The loop issues no connect attempts. -/
theorem start_listeners_spec : ∀ (ok : Nat → Bool) (first : Bool) (idx : Nat)
    (l out : List ListenerH) (att : List StartAttempt),
    start_listeners ok first idx l = some (out, att) →
    (∀ j, out[j]? = (l[j]?).map (fun li =>
       if li.pn_listener.isNone then
         { (qd_listener_listen (ok (idx + j)) li).2 with exit_on_error := first }
       else li)) ∧
    (∀ k, StartAttempt.listen k ∈ att ↔
       ∃ j li, l[j]? = some li ∧ k = idx + j ∧ li.pn_listener = none) ∧
    (∀ k, StartAttempt.connect k ∉ att) := by
  intro ok first
  intro idx l
  induction l generalizing idx with
  | nil =>
    intro out att h
    simp only [start_listeners, Option.some.injEq, Prod.mk.injEq] at h
    obtain ⟨hout, hatt⟩ := h
    subst hout; subst hatt
    refine ⟨fun j => by simp, fun k => by simp, fun k => by simp⟩
  | cons li rest ih =>
    intro out att h
    simp only [start_listeners] at h
    by_cases hnone : li.pn_listener.isNone
    · rw [if_pos hnone] at h
      by_cases hfail : (qd_listener_listen (ok idx) li).1 = false ∧ first
      · rw [if_pos hfail] at h; cases h
      · rw [if_neg hfail] at h
        cases hrec : start_listeners ok first (idx + 1) rest with
        | none => rw [hrec] at h; cases h
        | some pr =>
          obtain ⟨rest1, att1⟩ := pr
          rw [hrec] at h
          simp only [Option.some.injEq, Prod.mk.injEq] at h
          obtain ⟨hout, hatt⟩ := h
          subst hout; subst hatt
          obtain ⟨iha, ihb, ihc⟩ := ih (idx + 1) rest1 att1 hrec
          refine ⟨?_, ?_, ?_⟩
          · intro j
            match j with
            | 0 =>
              simp only [List.getElem?_cons_zero, Option.map_some']
              rw [if_pos hnone]
              simp
            | j + 1 =>
              simp only [List.getElem?_cons_succ]
              have harith : idx + (j + 1) = idx + 1 + j := by omega
              rw [harith]
              exact iha j
          · intro k
            simp only [List.mem_cons]
            constructor
            · rintro (heq | hmem)
              · cases heq
                exact ⟨0, li, by simp, by omega, Option.isNone_iff_eq_none.mp hnone⟩
              · obtain ⟨j, li', hj, hk, hpn⟩ := (ihb k).mp hmem
                exact ⟨j + 1, li', by simpa using hj, by omega, hpn⟩
            · rintro ⟨j, li', hj, hk, hpn⟩
              match j with
              | 0 =>
                rw [List.getElem?_cons_zero] at hj
                cases hj
                exact Or.inl (by simp [hk])
              | j + 1 =>
                rw [List.getElem?_cons_succ] at hj
                exact Or.inr ((ihb k).mpr ⟨j, li', hj, by omega, hpn⟩)
          · intro k hmem
            rcases List.mem_cons.mp hmem with heq | hmem2
            · cases heq
            · exact ihc k hmem2
    · rw [if_neg hnone] at h
      cases hrec : start_listeners ok first (idx + 1) rest with
      | none => rw [hrec] at h; cases h
      | some pr =>
        obtain ⟨rest1, att1⟩ := pr
        rw [hrec] at h
        simp only [Option.some.injEq, Prod.mk.injEq] at h
        obtain ⟨hout, hatt⟩ := h
        subst hout; subst hatt
        obtain ⟨iha, ihb, ihc⟩ := ih (idx + 1) rest1 att1 hrec
        refine ⟨?_, ?_, ?_⟩
        · intro j
          match j with
          | 0 =>
            simp only [List.getElem?_cons_zero, Option.map_some']
            rw [if_neg hnone]
          | j + 1 =>
            simp only [List.getElem?_cons_succ]
            have harith : idx + (j + 1) = idx + 1 + j := by omega
            rw [harith]
            exact iha j
        · intro k
          rw [ihb k]
          constructor
          · rintro ⟨j, li', hj, hk, hpn⟩
            exact ⟨j + 1, li', by simpa using hj, by omega, hpn⟩
          · rintro ⟨j, li', hj, hk, hpn⟩
            match j with
            | 0 =>
              rw [List.getElem?_cons_zero] at hj
              cases hj
              exact absurd (Option.isNone_iff_eq_none.mpr hpn) hnone
            | j + 1 =>
              rw [List.getElem?_cons_succ] at hj
              exact ⟨j, li', hj, by omega, hpn⟩
        · exact ihc

/-- Claim C7: `start` initiates a listen attempt only for listeners not
currently accepting and a connect attempt only for connectors whose state is
neither connecting nor open; and across two consecutive invocations, no
connect attempt of the first run is repeated by the second, and no listen
attempt of the first run whose bind succeeded is repeated by the second — no
duplicate attempt on an already-active handle. -/
theorem start_no_duplicate_attempts (ok1 ok2 : Nat → Bool) (cm cm1 cm2 : CMStartState)
    (a1 a2 : List StartAttempt)
    (h1 : qd_connection_manager_start ok1 cm = some (cm1, a1))
    (h2 : qd_connection_manager_start ok2 cm1 = some (cm2, a2)) :
    (∀ i, StartAttempt.listen i ∈ a1 →
      ∃ li, cm.listeners[i]? = some li ∧ li.pn_listener = none) ∧
    (∀ i, StartAttempt.connect i ∈ a1 →
      ∃ ct, cm.connectors[i]? = some ct ∧
        ct.state ≠ CxtrState.OPEN ∧ ct.state ≠ CxtrState.CONNECTING) ∧
    (∀ i, StartAttempt.connect i ∈ a1 → StartAttempt.connect i ∉ a2) ∧
    (∀ i, StartAttempt.listen i ∈ a1 → ok1 i = true → StartAttempt.listen i ∉ a2) := by
  unfold qd_connection_manager_start at h1 h2
  cases hls1 : start_listeners ok1 cm.first_start 0 cm.listeners with
  | none => rw [hls1] at h1; cases h1
  | some pr1 =>
    obtain ⟨ls1, la1⟩ := pr1
    rw [hls1] at h1
    simp only [Option.some.injEq, Prod.mk.injEq] at h1
    obtain ⟨hcm1, ha1⟩ := h1
    subst ha1
    rw [← hcm1] at h2
    simp only at h2
    cases hls2 : start_listeners ok2 false 0 ls1 with
    | none => rw [hls2] at h2; cases h2
    | some pr2 =>
      obtain ⟨ls2, la2⟩ := pr2
      rw [hls2] at h2
      simp only [Option.some.injEq, Prod.mk.injEq] at h2
      obtain ⟨hcm2, ha2⟩ := h2
      subst ha2
      obtain ⟨L1a, L1b, L1c⟩ :=
        start_listeners_spec ok1 cm.first_start 0 cm.listeners ls1 la1 hls1
      obtain ⟨L2a, L2b, L2c⟩ := start_listeners_spec ok2 false 0 ls1 ls2 la2 hls2
      have hconn1 := start_connectors_fst 0 cm.connectors
      refine ⟨?_, ?_, ?_, ?_⟩
      · intro i hmem
        rcases List.mem_append.mp hmem with hla | hca
        · obtain ⟨j, li, hj, hk, hpn⟩ := (L1b i).mp hla
          have : j = i := by omega
          subst this
          exact ⟨li, hj, hpn⟩
        · exact absurd hca (listen_not_mem_start_connectors 0 cm.connectors i)
      · intro i hmem
        rcases List.mem_append.mp hmem with hla | hca
        · exact absurd hla (L1c i)
        · obtain ⟨j, ct, hj, hk, hact⟩ :=
            (connect_mem_start_connectors 0 cm.connectors i).mp hca
          have : j = i := by omega
          subst this
          push_neg at hact
          exact ⟨ct, hj, hact.1, hact.2⟩
      · intro i hmem1 hmem2
        rcases List.mem_append.mp hmem1 with hla | hca
        · exact absurd hla (L1c i)
        · obtain ⟨j, ct, hj, hk, hact⟩ :=
            (connect_mem_start_connectors 0 cm.connectors i).mp hca
          have hji : i = j := by omega
          subst hji
          rcases List.mem_append.mp hmem2 with hla2 | hca2
          · exact absurd hla2 (L2c i)
          · obtain ⟨j2, ct2, hj2, hk2, hact2⟩ :=
              (connect_mem_start_connectors 0 (start_connectors 0 cm.connectors).1 i).mp hca2
            have hji2 : i = j2 := by omega
            subst hji2
            rw [hconn1, List.getElem?_map, hj] at hj2
            simp only [Option.map_some', Option.some.injEq] at hj2
            rw [if_neg hact] at hj2
            apply hact2
            rw [← hj2]
            simp [qd_connector_connect]
      · intro i hmem1 hok hmem2
        rcases List.mem_append.mp hmem1 with hla | hca
        · obtain ⟨j, li, hj, hk, hpn⟩ := (L1b i).mp hla
          have hji : i = j := by omega
          subst hji
          rcases List.mem_append.mp hmem2 with hla2 | hca2
          · obtain ⟨j2, li2, hj2, hk2, hpn2⟩ := (L2b i).mp hla2
            have hji2 : i = j2 := by omega
            subst hji2
            have hout := L1a i
            rw [hj] at hout
            simp only [Option.map_some'] at hout
            rw [if_pos (Option.isNone_iff_eq_none.mpr hpn)] at hout
            rw [hout] at hj2
            simp only [Option.some.injEq] at hj2
            have : li2.pn_listener = some 1 := by
              rw [← hj2]
              simp [qd_listener_listen, Nat.zero_add, hok]
            rw [this] at hpn2
            cases hpn2
          · exact absurd hca2
              (listen_not_mem_start_connectors 0 (start_connectors 0 cm.connectors).1 i)
        · exact absurd hca (listen_not_mem_start_connectors 0 cm.connectors i)

/-- Claim C7 witness: the theorem applied to a manager with one idle listener
and one idle connector, started twice with every bind succeeding: the first
run issues `listen 0` and `connect 0`, the second run issues nothing. -/
theorem start_no_duplicate_attempts_witness :
    ∃ ct, ([{ state := CxtrState.INIT }] : List ConnectorH)[0]? = some ct ∧
      ct.state ≠ CxtrState.OPEN ∧ ct.state ≠ CxtrState.CONNECTING := by
  have h := start_no_duplicate_attempts (fun _ => true) (fun _ => true)
    { listeners := [{ pn_listener := none, exit_on_error := false }]
      connectors := [{ state := CxtrState.INIT }]
      first_start := true }
    { listeners := [{ pn_listener := some 1, exit_on_error := true }]
      connectors := [{ state := CxtrState.CONNECTING }]
      first_start := false }
    { listeners := [{ pn_listener := some 1, exit_on_error := true }]
      connectors := [{ state := CxtrState.CONNECTING }]
      first_start := false }
    [StartAttempt.listen 0, StartAttempt.connect 0] []
    (by decide) (by decide)
  exact h.2.1 0 (by decide)

/-! ### Claim C1: failover-list serialization -/

/-- The circular advance stays at the successor while the tail is not passed. -/
theorem next_pos_no_wrap {len pos : Nat} (h : pos + 1 ≠ len) :
    next_pos len pos = pos + 1 := by
  unfold next_pos
  rw [if_neg h]

/-- The circular advance wraps to the head after the tail. -/
theorem next_pos_wrap {len pos : Nat} (h : pos + 1 = len) :
    next_pos len pos = 0 := by
  unfold next_pos
  rw [if_pos h]

/-- Emission phase of the refresh loop: once at least one item has been
emitted, the loop appends a separator and the next circular item per
iteration until `num_items` reaches the list length, both `conn_index == i`
and the `num_items > 0` branch emitting identically. -/
theorem refresh_loop_emit (items : List FailoverItem) (c : Nat) :
    ∀ (k pos i n : Nat) (acc : String) (fuel : Nat),
      1 ≤ n → n + k = items.length → k + 1 ≤ fuel →
      refresh_loop items c fuel pos i n acc = acc ++ sepJoin (circFrom items pos k) := by
  intro k
  induction k with
  | zero =>
    intro pos i n acc fuel h1 h2 h3
    obtain ⟨f, rfl⟩ : ∃ f, fuel = f + 1 := ⟨fuel - 1, by omega⟩
    simp only [refresh_loop]
    rw [if_pos (by omega : n ≥ items.length)]
    simp [circFrom, sepJoin, String.append_empty]
  | succ k ih =>
    intro pos i n acc fuel h1 h2 h3
    obtain ⟨f, rfl⟩ : ∃ f, fuel = f + 1 := ⟨fuel - 1, by omega⟩
    simp only [refresh_loop]
    rw [if_neg (by omega : ¬ n ≥ items.length)]
    rw [if_pos (by omega : n ≥ 1)]
    by_cases hc : c = i
    · rw [if_pos hc]
      rw [ih (next_pos items.length pos) (i + 1) (n + 1)
        (acc ++ ", " ++ format_failover_item
          (items.getD pos { scheme := none, host_port := none })) f
        (by omega) (by omega) (by omega)]
      simp only [circFrom, sepJoin]
      simp [String.append_assoc]
    · rw [if_neg hc]
      rw [if_pos (by omega : n > 0)]
      rw [ih (next_pos items.length pos) (i + 1) (n + 1)
        (acc ++ ", " ++ format_failover_item
          (items.getD pos { scheme := none, host_port := none })) f
        (by omega) (by omega) (by omega)]
      simp only [circFrom, sepJoin]
      simp [String.append_assoc]

/-- Seek phase of the refresh loop: with nothing emitted yet, iterations are
skipped until the running `i` reaches `conn_index`; the loop then emits the
item at position `conn_index - 1` followed by the remaining `length - 1`
circular items. -/
theorem refresh_loop_seek (items : List FailoverItem) (c : Nat)
    (hlen : 1 ≤ items.length) (hc : c ≤ items.length) :
    ∀ (m pos fuel : Nat), pos + 1 + m = c → m + items.length + 1 ≤ fuel →
      refresh_loop items c fuel pos (pos + 1) 0 "" =
        format_failover_item (items.getD (c - 1) { scheme := none, host_port := none }) ++
          sepJoin (circFrom items (next_pos items.length (c - 1)) (items.length - 1)) := by
  intro m
  induction m with
  | zero =>
    intro pos fuel hpos hfuel
    obtain ⟨f, rfl⟩ : ∃ f, fuel = f + 1 := ⟨fuel - 1, by omega⟩
    have hp : c - 1 = pos := by omega
    rw [hp]
    simp only [refresh_loop]
    rw [if_neg (by omega : ¬ 0 ≥ items.length)]
    rw [if_neg (by omega : ¬ 0 ≥ 1)]
    rw [if_pos (by omega : c = pos + 1)]
    rw [refresh_loop_emit items c (items.length - 1) (next_pos items.length pos)
      (pos + 1 + 1) 1
      ("" ++ format_failover_item (items.getD pos { scheme := none, host_port := none })) f
      (by omega) (by omega) (by omega)]
    rw [String.empty_append]
  | succ m ih =>
    intro pos fuel hpos hfuel
    obtain ⟨f, rfl⟩ : ∃ f, fuel = f + 1 := ⟨fuel - 1, by omega⟩
    simp only [refresh_loop]
    rw [if_neg (by omega : ¬ 0 ≥ items.length)]
    rw [if_neg (by omega : ¬ 0 ≥ 1)]
    rw [if_neg (by omega : ¬ c = pos + 1)]
    rw [if_neg (by omega : ¬ 0 > 0)]
    rw [next_pos_no_wrap (by omega : pos + 1 ≠ items.length)]
    exact ih (pos + 1) f (by omega) (by omega)

/-- A circular read that does not wrap is a contiguous slice. -/
theorem circFrom_straight (items : List FailoverItem) :
    ∀ (k pos : Nat), pos + k ≤ items.length →
      circFrom items pos k = (items.drop pos).take k := by
  intro k
  induction k with
  | zero => intro pos h; simp [circFrom]
  | succ k ih =>
    intro pos h
    have hpos : pos < items.length := by omega
    simp only [circFrom]
    by_cases hwrap : pos + 1 = items.length
    · have hk : k = 0 := by omega
      subst hk
      rw [List.drop_eq_getElem_cons hpos, List.take_succ_cons, List.take_zero]
      simp only [circFrom]
      rw [List.getD_eq_getElem items _ hpos]
    · rw [next_pos_no_wrap hwrap]
      rw [ih (pos + 1) (by omega)]
      rw [List.drop_eq_getElem_cons hpos]
      rw [List.take_succ_cons]
      rw [List.getD_eq_getElem items _ hpos]

/-- A circular read splits at any intermediate step count. -/
theorem circFrom_append (items : List FailoverItem) :
    ∀ (a b pos : Nat),
      circFrom items pos (a + b) =
        circFrom items pos a ++ circFrom items (circAdvance items.length a pos) b := by
  intro a
  induction a with
  | zero =>
    intro b pos
    simp [circFrom, circAdvance]
  | succ a ih =>
    intro b pos
    have harith : a + 1 + b = (a + b) + 1 := by omega
    rw [harith]
    simp only [circFrom, circAdvance]
    rw [ih b (next_pos items.length pos)]
    simp

/-- Advancing within one revolution lands at `pos + a`, wrapping to 0 exactly
when the tail is passed. -/
theorem circAdvance_no_wrap (len : Nat) :
    ∀ (a pos : Nat), pos < len → pos + a ≤ len →
      circAdvance len a pos = if pos + a = len then 0 else pos + a := by
  intro a
  induction a with
  | zero =>
    intro pos h1 h2
    rw [if_neg (by omega : ¬ pos + 0 = len)]
    simp [circAdvance]
  | succ a ih =>
    intro pos h1 h2
    simp only [circAdvance]
    by_cases hw : pos + 1 = len
    · rw [next_pos_wrap hw]
      have ha : a = 0 := by omega
      subst ha
      rw [if_pos (by omega : pos + (0 + 1) = len)]
      simp [circAdvance]
    · rw [next_pos_no_wrap hw]
      rw [ih (pos + 1) (by omega) (by omega)]
      have harith : pos + 1 + a = pos + (a + 1) := by omega
      rw [harith]

/-- Reading one full revolution from `pos` yields the rotation of the list
that starts at `pos`. -/
theorem circFrom_full (items : List FailoverItem) (pos : Nat)
    (h : pos < items.length) :
    circFrom items pos items.length = items.drop pos ++ items.take pos := by
  have hsplit : items.length = (items.length - pos) + pos := by omega
  rw [hsplit, circFrom_append items (items.length - pos) pos pos]
  rw [circAdvance_no_wrap items.length (items.length - pos) pos h (by omega)]
  rw [if_pos (by omega : pos + (items.length - pos) = items.length)]
  rw [circFrom_straight items (items.length - pos) pos (by omega)]
  rw [circFrom_straight items pos 0 (by omega)]
  rw [List.drop_zero]
  congr 1
  have hdlen : (items.drop pos).length = items.length - pos := by
    simp [List.length_drop]
  rw [← hdlen, List.take_length]

/-- The comma-and-space join of a nonempty formatted list is its head followed
by the separator-prefixed tail, the shape the loop accumulator takes. -/
theorem joinCommaSpace_cons_sepJoin :
    ∀ (l : List FailoverItem) (x : FailoverItem),
      joinCommaSpace ((x :: l).map format_failover_item) =
        format_failover_item x ++ sepJoin l := by
  intro l
  induction l with
  | nil => intro x; simp [joinCommaSpace, sepJoin, String.append_empty]
  | cons y l ih =>
    intro x
    simp only [List.map_cons, joinCommaSpace, sepJoin]
    rw [show joinCommaSpace (format_failover_item y :: List.map format_failover_item l) =
      format_failover_item y ++ sepJoin l from ih y]
    simp [String.append_assoc]

/-- Claim C1: for a non-empty failover sequence and a 1-based starting
position addressing one of its elements, `qd_entity_refresh_connector`
produces the comma-and-space join of the items read once around the circular
sequence starting at that position — the rotation `drop (c-1) ++ take (c-1)`
— each item formatted as `scheme://host:port` with absent parts omitted, and
with no leading or trailing separator. -/
theorem refresh_connector_rotates (items : List FailoverItem) (c : Nat)
    (h1 : items ≠ []) (h2 : 1 ≤ c) (h3 : c ≤ items.length) :
    qd_entity_refresh_connector items c =
      joinCommaSpace ((items.drop (c - 1) ++ items.take (c - 1)).map format_failover_item) := by
  have hlen : 1 ≤ items.length := by
    cases items with
    | nil => exact absurd rfl h1
    | cons a l => simp
  have hpos : c - 1 < items.length := by omega
  unfold qd_entity_refresh_connector
  have hseek := refresh_loop_seek items c hlen h3 (c - 1) 0 (c + items.length + 1)
    (by omega) (by omega)
  rw [hseek]
  have hrot : items.drop (c - 1) ++ items.take (c - 1) =
      items.getD (c - 1) { scheme := none, host_port := none } ::
        circFrom items (next_pos items.length (c - 1)) (items.length - 1) := by
    rw [← circFrom_full items (c - 1) hpos]
    conv_lhs => rw [show items.length = (items.length - 1) + 1 from by omega]
    simp only [circFrom]
  rw [hrot, joinCommaSpace_cons_sepJoin]

/-- Claim C1 witness: the theorem at the sequences [A,B,C] and [A,B,C,D] with
starting position 2, giving "B, C, A" and "B, C, D, A". -/
theorem refresh_connector_rotates_witness :
    qd_entity_refresh_connector
      [{ scheme := none, host_port := some "A" }, { scheme := none, host_port := some "B" },
       { scheme := none, host_port := some "C" }] 2 = "B, C, A" ∧
    qd_entity_refresh_connector
      [{ scheme := none, host_port := some "A" }, { scheme := none, host_port := some "B" },
       { scheme := none, host_port := some "C" }, { scheme := none, host_port := some "D" }] 2 =
      "B, C, D, A" := by
  constructor
  · rw [refresh_connector_rotates _ 2 (by decide) (by decide) (by decide)]
    decide
  · rw [refresh_connector_rotates _ 2 (by decide) (by decide) (by decide)]
    decide
